import Mathlib

/-!
Verification development for the retro-arcade-web NES player
(`src/emulators/nes/NesPlayer.jsx`).

The emulation engine (jsnes) is an external collaborator: it is modelled
as an abstract deterministic machine with a boot function (constructor
plus `loadROM`), a frame-advance function producing the raw frame buffer,
and duck-typed save/load-state method shapes.  Everything the player
component itself does — pixel unpacking, the audio sample queue, the
run/pause flags, localStorage save states, the capability-probing
adapters — is embedded directly from the source.

JavaScript 32-bit integer operations are modelled over `Nat` with
explicit `% 2^32`; `localStorage` is modelled as a partial map from
string keys to raw stored values, where a raw value is either a
well-parsed envelope or an unparseable blob (`JSON.parse` throwing).
-/

namespace RetroArcade

/-- Frame width (`const W = 256`). -/
def W : Nat := 256

/-- Frame height (`const H = 240`). -/
def H : Nat := 240

/-- `const SAVE_VERSION = 1`. -/
def SAVE_VERSION : Nat := 1

/-- `const LS_PREFIX = "retro-arcade-web:nes"`. -/
def LS_PREFIX : String := "retro-arcade-web:nes"

/-- 2^32, the wrap-around modulus of JavaScript 32-bit integer coercion. -/
def UINT32 : Nat := 4294967296

/-- One step of `djb2Hash`: `h = ((h << 5) + h) ^ str.charCodeAt(i)`.
JavaScript coerces both xor operands to 32 bits, so the step is
`(h * 33) xor c` modulo 2^32. -/
def djb2Step (h c : Nat) : Nat :=
  (((h * 33) % UINT32) ^^^ c) % UINT32

/-- `djb2Hash(str)` from NesPlayer.jsx (before the hex conversion):
`let h = 5381; for (...) h = ((h << 5) + h) ^ str.charCodeAt(i)`,
returned as the unsigned value `h >>> 0`. -/
def djb2Hash (s : String) : Nat :=
  s.data.foldl (fun h c => djb2Step h c.toNat) 5381

/-- JavaScript `n.toString(16)` for an unsigned integer: lowercase
hexadecimal digits, no padding. -/
def toHexStr (n : Nat) : String :=
  String.mk (Nat.toDigits 16 n)

/-- JavaScript `toLowerCase` on a file name, character by character
(file names of interest are ASCII). -/
def jsToLower (s : String) : String :=
  String.mk (s.data.map Char.toLower)

/-- JavaScript `endsWith`. -/
def jsEndsWith (s sfx : String) : Bool :=
  List.isSuffixOf sfx.data s.data

/-- The ROM identity key computed in `loadRom`:
``romKeyRef.current = `${file.name}:${bin.length}:${djb2Hash(bin.slice(0, 20000))}` ``.
The binary string has one UTF-16 unit per ROM byte, so its length is the
byte length and `slice(0, 20000)` is the first 20000 bytes. -/
def romIdentityKey (fname bin : String) : String :=
  fname ++ ":" ++ toString bin.length ++ ":" ++ toHexStr (djb2Hash (bin.take 20000))

/-- `const USE_ABGR = true` — the statically configured channel order of
the engine frame buffer. -/
def USE_ABGR : Bool := true

/-- Per-pixel unpacking in `onFrame`: for a packed 32-bit pixel `p`,
with `USE_ABGR` red is the lowest byte (`p & 0xff`), green the next
(`(p >> 8) & 0xff`), blue the next (`(p >> 16) & 0xff`); otherwise red
is `(p >> 16) & 0xff` and blue the lowest byte.  Alpha is forced to
`0xff` in both layouts.  Shifts and masks are modelled with `/` and
`% 256`, which agrees with the JavaScript operators for `p < 2^32`. -/
def renderPixel (useABGR : Bool) (p : Nat) : List Nat :=
  if useABGR then
    [p % 256, (p / 256) % 256, (p / 65536) % 256, 255]
  else
    [(p / 65536) % 256, (p / 256) % 256, p % 256, 255]

/-- The `onFrame` loop: each pixel `frameBuffer[i]` is written to the
RGBA image data at byte offset `i * 4`. -/
def onFrameRender (useABGR : Bool) : List Nat → List Nat
  | [] => []
  | p :: rest => renderPixel useABGR p ++ onFrameRender useABGR rest

/-- The audio queue cap from `onAudioSample`:
`const max = 44100 * 2` — about one second of interleaved stereo. -/
def AUDIO_CAP : Nat := 44100 * 2

/-- `onAudioSample(l, r)`: `q.push(l, r)`, then
`if (q.length > max) q.splice(0, q.length - max)` — append the sample
pair and drop the oldest samples beyond the cap. -/
def onAudioSample (q : List Int) (l r : Int) : List Int :=
  let q2 := q ++ [l, r]
  if AUDIO_CAP < q2.length then q2.drop (q2.length - AUDIO_CAP) else q2

/-- The `onaudioprocess` consumer loop over an output block of
`frames` sample frames: while at least two queued samples remain, shift
a left/right pair into the output; otherwise emit silence `(0, 0)` and
leave the queue untouched.  Returns the remaining queue and the
emitted stereo frames. -/
def pullBlock : Nat → List Int → List Int × List (Int × Int)
  | 0, q => (q, [])
  | n + 1, q =>
    match q with
    | l :: r :: rest =>
      let p := pullBlock n rest
      (p.1, (l, r) :: p.2)
    | _ =>
      let p := pullBlock n q
      (p.1, (0, 0) :: p.2)

/-- The operations that touch the audio sample queue: the engine
producer callback (`onAudioSample`), the audio device consumer callback
(`onaudioprocess`), and the clears (`audioQRef.current = []` in
`loadRom`, `reset`, save-load and teardown). -/
inductive AudioOp where
  | enqueue (l r : Int)
  | pull (frames : Nat)
  | clear
  deriving Repr

/-- Effect of one audio operation on the queue. -/
def audioStep (q : List Int) : AudioOp → List Int
  | AudioOp.enqueue l r => onAudioSample q l r
  | AudioOp.pull n => (pullBlock n q).1
  | AudioOp.clear => []

/-- A burst of producer enqueues, oldest first. -/
def enqueueSeq (q : List Int) : List (Int × Int) → List Int
  | [] => q
  | (l, r) :: rest => enqueueSeq (onAudioSample q l r) rest

/-! ## Save-state records and localStorage -/

/-- The `meta` object of a persisted save-state envelope:
`{ version: SAVE_VERSION, romName, romKey, savedAt: nowIso() }`. -/
structure SaveMeta where
  version : Nat
  romName : String
  romKey : String
  savedAt : String
  deriving DecidableEq, Repr

/-- A parsed save-state envelope `{ meta, state }`.  Either field may be
absent from a stored JSON object, so both are optional; the loader only
requires `state` to be present. -/
structure SaveEnvelope (Snap : Type) where
  meta : Option SaveMeta
  state : Option Snap
  deriving DecidableEq, Repr

/-- A raw value in localStorage under a save key: either a string that
`JSON.parse` rejects, or one that parses to an envelope. -/
inductive RawValue (Snap : Type) where
  | malformed
  | parsed (e : SaveEnvelope Snap)
  deriving DecidableEq, Repr

/-- The per-origin key-value store (`localStorage`) as a partial map. -/
abbrev StoreT (Snap : Type) := String → Option (RawValue Snap)

/-- `localStorage.getItem`. -/
def getItem (store : StoreT Snap) (k : String) : Option (RawValue Snap) :=
  store k

/-- `localStorage.setItem`. -/
def setItem (store : StoreT Snap) (k : String) (v : RawValue Snap) : StoreT Snap :=
  fun x => if x = k then some v else store x

/-! ## Engine adapter: duck-typed save/load-state and button shapes

The jsnes build may or may not expose each candidate method, so every
candidate is an `Option`al function.  A button attempt that exists can
still throw (caught by the `try`/`catch` around each attempt in
`press`), hence the `Option σ` result of pad shapes. -/

/-- The candidate snapshot method shapes probed by `exportState` and
`importState`, in source order. -/
structure SaveAPI (σ Snap : Type) where
  toJSON : Option (σ → Snap)
  serialize : Option (σ → Snap)
  saveState : Option (σ → Snap)
  getState : Option (σ → Snap)
  fromJSON : Option (σ → Snap → σ)
  deserialize : Option (σ → Snap → σ)
  loadState : Option (σ → Snap → σ)
  setState : Option (σ → Snap → σ)

/-- `exportState(nesInstance)`: `null` for a missing instance, else the
first of `toJSON`, `serialize`, `saveState`, `getState` that exists;
throws `"This jsnes build does not expose a save-state API."` when all
four are absent. -/
def exportState (api : SaveAPI σ Snap) (nes : Option σ) : Except String (Option Snap) :=
  match nes with
  | none => Except.ok none
  | some n =>
    match api.toJSON with
    | some f => Except.ok (some (f n))
    | none =>
      match api.serialize with
      | some f => Except.ok (some (f n))
      | none =>
        match api.saveState with
        | some f => Except.ok (some (f n))
        | none =>
          match api.getState with
          | some f => Except.ok (some (f n))
          | none => Except.error "This jsnes build does not expose a save-state API."

/-- `importState(nesInstance, state)`: a silent no-op for a missing
instance, else the first of `fromJSON`, `deserialize`, `loadState`,
`setState` that exists; throws
`"This jsnes build does not expose a load-state API."` when all four
are absent. -/
def importState (api : SaveAPI σ Snap) (nes : Option σ) (st : Snap) :
    Except String (Option σ) :=
  match nes with
  | none => Except.ok none
  | some n =>
    match api.fromJSON with
    | some f => Except.ok (some (f n st))
    | none =>
      match api.deserialize with
      | some f => Except.ok (some (f n st))
      | none =>
        match api.loadState with
        | some f => Except.ok (some (f n st))
        | none =>
          match api.setState with
          | some f => Except.ok (some (f n st))
          | none => Except.error "This jsnes build does not expose a load-state API."

/-- The candidate button-event shapes probed by `press`, in source
order: `n.controllers[0]`, `n.controller1`, and `n.buttonDown(player,
btn)` called with player `0` then player `1`.  A shape yields `none`
when applying it throws (the attempt is then skipped). -/
structure PadAPI (σ : Type) where
  controllers0 : Option (σ → Nat → Bool → Option σ)
  controller1 : Option (σ → Nat → Bool → Option σ)
  buttonDownUp : Option (Nat → σ → Nat → Bool → Option σ)

/-- Run one candidate shape: absent shapes behave like an attempt that
returned `false`. -/
def runShape (cand : Option (σ → Nat → Bool → Option σ)) (n : σ) (btn : Nat)
    (isDown : Bool) : Option σ :=
  match cand with
  | none => none
  | some g => g n btn isDown

/-- The `KEYMAP` target names mapped to jsnes `Controller.BUTTON_*`
codes inside `press`. -/
def buttonMap : String → Option Nat
  | "A" => some 0
  | "B" => some 1
  | "SELECT" => some 2
  | "START" => some 3
  | "UP" => some 4
  | "DOWN" => some 5
  | "LEFT" => some 6
  | "RIGHT" => some 7
  | _ => none

/-- The probing loop of `press(key, isDown)` after the button code is
resolved: try each shape in order inside `try`/`catch`, stop at the
first that succeeds; when every attempt fails or is absent the loop
falls through and `press` returns with no effect and no error.  The
boolean records whether any attempt handled the event. -/
def press (pad : PadAPI σ) (n : σ) (btn : Nat) (isDown : Bool) : σ × Bool :=
  match runShape pad.controllers0 n btn isDown with
  | some n1 => (n1, true)
  | none =>
    match runShape pad.controller1 n btn isDown with
    | some n1 => (n1, true)
    | none =>
      match pad.buttonDownUp with
      | some f =>
        match f 0 n btn isDown with
        | some n1 => (n1, true)
        | none =>
          match f 1 n btn isDown with
          | some n1 => (n1, true)
          | none => (n, false)
      | none => (n, false)

/-! ## The emulation session -/

/-- The abstract, deterministic engine collaborator: `boot rom` is
`new jsnes.NES(...)` followed by `loadROM(rom)`; `frame` advances one
display frame and yields the raw packed frame buffer handed to
`onFrame`; `api` is the duck-typed save/load-state surface. -/
structure EngineSem (σ Snap : Type) where
  boot : String → σ
  frame : σ → σ × List Nat
  api : SaveAPI σ Snap

/-- The mutable refs and React state of the `NesPlayer` component.
`running` is `runningRef`, `audioInited` records whether `ensureAudio`
has created the audio context, `audioQ` is `audioQRef`, and `store` is
the browser localStorage. -/
structure Session (σ Snap : Type) where
  nes : Option σ
  romBin : Option String
  romName : String
  romKey : Option String
  loadedName : String
  running : Bool
  audioInited : Bool
  audioQ : List Int
  status : String
  store : StoreT Snap
  hasSave : Bool
  lastSavedAt : Option String

/-- The key built by `getSaveStorageKey` from a bound ROM key. -/
def mkSaveKey (rk : String) : String :=
  LS_PREFIX ++ ":savestate:v" ++ toString SAVE_VERSION ++ ":" ++ rk

/-- `getSaveStorageKey()`: `null` without a ROM key, else
``${LS_PREFIX}:savestate:v${SAVE_VERSION}:${romKeyRef.current}``. -/
def getSaveStorageKey (sess : Session σ Snap) : Option String :=
  sess.romKey.map mkSaveKey

/-- The run states of the session state machine of the spec, as far as
the code distinguishes them (`Paused` and `Loaded` are both a stopped
loop with a ROM bound). -/
inductive RunState where
  | Idle
  | Loaded
  | Running
  deriving DecidableEq, Repr

/-- The run state determined by the component flags: `runningRef` and a
non-empty `loadedName`. -/
def runStateOf (sess : Session σ Snap) : RunState :=
  if sess.running then RunState.Running
  else if sess.loadedName = "" then RunState.Idle
  else RunState.Loaded

/-- `stop()`: clear `runningRef` and cancel the scheduled frame. -/
def stopLoop (sess : Session σ Snap) : Session σ Snap :=
  { sess with running := false }

/-- `ensureAudio()`: resume and return if the context exists; report
`"AudioContext not supported in this browser."` when the platform has
no audio facility; otherwise create the context and processor node.
`audioSupported` stands for `window.AudioContext` being available. -/
def ensureAudio (audioSupported : Bool) (sess : Session σ Snap) : Session σ Snap :=
  if sess.audioInited then sess
  else if audioSupported = false then
    { sess with status := "AudioContext not supported in this browser." }
  else { sess with audioInited := true }

/-- `play()`: report `"Load a ROM first."` without a loaded ROM;
otherwise unlock audio, and unless already running, set `runningRef`
and schedule the frame loop. -/
def play (audioSupported : Bool) (sess : Session σ Snap) : Session σ Snap :=
  if sess.loadedName = "" then { sess with status := "Load a ROM first." }
  else
    let s1 := ensureAudio audioSupported sess
    if s1.running then s1
    else { s1 with running := true, status := "Playing… (Press Enter = Start)" }

/-- `drawOneFrame()`: `nesRef.current?.frame()` — advance the engine one
frame, returning the painted frame buffer (or nothing without an
engine instance). -/
def drawOneFrame (sem : EngineSem σ Snap) (sess : Session σ Snap) :
    Session σ Snap × Option (List Nat) :=
  match sess.nes with
  | none => (sess, none)
  | some n => ({ sess with nes := some (sem.frame n).1 }, some (sem.frame n).2)

/-- `saveStateToLocalStorage({ silent })`: without a storage key report
(unless silent) and fail; without an engine instance fail silently;
export a snapshot via the adapter (a throw is caught and reported);
wrap it as `{ meta: { version, romName, romKey, savedAt }, state }`,
`JSON.stringify` it into localStorage under the key, update the save
indicators and report.  `now` is `nowIso()`; `toLocaleString`
formatting of the status message is not modelled beyond the raw
timestamp. -/
def saveStateToLocalStorage (sem : EngineSem σ Snap) (silent : Bool) (now : String)
    (sess : Session σ Snap) : Session σ Snap × Bool :=
  match sess.romKey with
  | none =>
    (if silent then sess else { sess with status := "Load a ROM before saving." }, false)
  | some rk =>
    let key := mkSaveKey rk
    match sess.nes with
    | none => (sess, false)
    | some n =>
      match exportState sem.api (some n) with
      | Except.error e =>
        (if silent then sess else { sess with status := "Save failed: " ++ e }, false)
      | Except.ok stOpt =>
        let payload : SaveEnvelope Snap :=
          { meta := some { version := SAVE_VERSION,
                           romName := if sess.romName = "" then sess.loadedName else sess.romName,
                           romKey := rk,
                           savedAt := now },
            state := stOpt }
        ({ sess with store := setItem sess.store key (RawValue.parsed payload),
                     hasSave := true,
                     lastSavedAt := some now,
                     status := if silent then sess.status
                               else "Saved state (" ++ now ++ ")" }, true)

/-- The observable outcome of `loadStateFromLocalStorage`, read off the
status it sets: no storage key, no stored record, a record whose
envelope lacks a state payload, a caught throw (`JSON.parse` failure,
`loadROM(null)`, or an adapter throw), or success. -/
inductive LoadOutcome where
  | noKey
  | noSaveFound
  | invalidData
  | loadFailed
  | loaded
  deriving DecidableEq, Repr

/-- `loadStateFromLocalStorage()`: look up the record under the
current key, parse it, require a state payload, then stop the loop,
cold-boot a fresh engine from the retained ROM binary, import the
snapshot into it, swap it in, clear the audio queue, report, and draw
one frame.  Every failure leaves `nesRef.current` untouched.  Returns
the new session, the outcome, and the frame buffer painted on
success. -/
def loadStateFromLocalStorage (sem : EngineSem σ Snap) (sess : Session σ Snap) :
    Session σ Snap × LoadOutcome × Option (List Nat) :=
  match sess.romKey with
  | none =>
    ({ sess with status := "Load a ROM before loading a save." }, LoadOutcome.noKey, none)
  | some rk =>
    match getItem sess.store (mkSaveKey rk) with
    | none =>
      ({ sess with status := "No save state found for this ROM." },
        LoadOutcome.noSaveFound, none)
    | some RawValue.malformed =>
      ({ sess with status := "Load failed" }, LoadOutcome.loadFailed, none)
    | some (RawValue.parsed payload) =>
      match payload.state with
      | none =>
        ({ sess with status := "Save state data is invalid." },
          LoadOutcome.invalidData, none)
      | some st =>
        match sess.romBin with
        | none =>
          ({ sess with running := false, status := "Load failed" },
            LoadOutcome.loadFailed, none)
        | some rom =>
          match importState sem.api (some (sem.boot rom)) st with
          | Except.error _ =>
            ({ sess with running := false, status := "Load failed" },
              LoadOutcome.loadFailed, none)
          | Except.ok none =>
            let s1 := { sess with running := false, nes := some (sem.boot rom),
                                  audioQ := [], status := "Loaded save" }
            let d := drawOneFrame sem s1
            (d.1, LoadOutcome.loaded, d.2)
          | Except.ok (some n1) =>
            let s1 := { sess with running := false, nes := some n1,
                                  audioQ := [], status := "Loaded save" }
            let d := drawOneFrame sem s1
            (d.1, LoadOutcome.loaded, d.2)

/-- `refreshSaveIndicators()`: probe the store under the current key
and set `hasSave` / `lastSavedAt` (`parsed?.meta?.savedAt || null`);
a parse throw clears both. -/
def refreshSaveIndicators (sess : Session σ Snap) : Session σ Snap :=
  match sess.romKey with
  | none => { sess with hasSave := false, lastSavedAt := none }
  | some rk =>
    match getItem sess.store (mkSaveKey rk) with
    | none => { sess with hasSave := false, lastSavedAt := none }
    | some RawValue.malformed => { sess with hasSave := false, lastSavedAt := none }
    | some (RawValue.parsed e) =>
      { sess with hasSave := true,
                  lastSavedAt :=
                    match e.meta with
                    | some m => if m.savedAt = "" then none else some m.savedAt
                    | none => none }

/-- `loadRom(file)` after the file bytes are turned into a binary
string: reject names not ending in `.nes`; retain the binary and name,
derive the ROM identity key, cold-boot a fresh engine and load the ROM
into it, clear the audio queue, stop the loop, draw one frame, refresh
the save indicators and surface a hint when a save exists.  (The
autosave timer and focus calls have no session effect modelled here;
an engine-internal `loadROM` throw is the engine collaborator and is
outside this model.) -/
def loadRom (sem : EngineSem σ Snap) (sess : Session σ Snap) (fname bin : String) :
    Session σ Snap × Option (List Nat) :=
  if jsEndsWith (jsToLower fname) ".nes" then
    let s1 := { sess with status := "Loading ROM…",
                          romBin := some bin,
                          romName := fname,
                          romKey := some (romIdentityKey fname bin),
                          nes := some (sem.boot bin),
                          loadedName := fname,
                          audioQ := [],
                          running := false }
    let s2 := { s1 with status := "Loaded. Click Play (audio starts on Play)." }
    let d := drawOneFrame sem s2
    let s3 := refreshSaveIndicators d.1
    if (getItem s3.store (mkSaveKey (romIdentityKey fname bin))).isSome then
      ({ s3 with status := "Save found for this ROM. Click “Load Save” to continue." }, d.2)
    else (s3, d.2)
  else ({ sess with status := "Please select a .nes ROM file." }, none)

/-- `reset()`: report `"No ROM loaded to reset."` without a retained
ROM; otherwise stop the loop, cold-boot a brand-new engine instance,
clear the audio queue, reload the retained ROM, restore the loaded
name, report, and draw one frame. -/
def reset (sem : EngineSem σ Snap) (sess : Session σ Snap) :
    Session σ Snap × Option (List Nat) :=
  match sess.romBin with
  | none => ({ sess with status := "No ROM loaded to reset." }, none)
  | some rom =>
    let s1 := { sess with running := false,
                          nes := some (sem.boot rom),
                          audioQ := [],
                          loadedName := if sess.romName = "" then sess.loadedName
                                        else sess.romName,
                          status := "Reset complete. Click Play to start fresh." }
    drawOneFrame sem s1

/-- The frame buffers the engine produces over `n` successive frame
advances from a state. -/
def producedFrames (sem : EngineSem σ Snap) : σ → Nat → List (List Nat)
  | _, 0 => []
  | s, n + 1 => (sem.frame s).2 :: producedFrames sem (sem.frame s).1 n

/-! ## Concrete instances used to exercise the theorems -/

/-- A concrete jsnes build exposing `toJSON` / `fromJSON` over a
machine state and snapshot both modelled as `Nat`. -/
def natAPI : SaveAPI Nat Nat :=
  { toJSON := some id, serialize := none, saveState := none, getState := none,
    fromJSON := some (fun _ st => st), deserialize := none, loadState := none,
    setState := none }

/-- A jsnes build exposing none of the snapshot method shapes. -/
def emptyAPI : SaveAPI Nat Nat :=
  { toJSON := none, serialize := none, saveState := none, getState := none,
    fromJSON := none, deserialize := none, loadState := none, setState := none }

/-- A jsnes build exposing none of the button-event method shapes. -/
def padNone : PadAPI Nat :=
  { controllers0 := none, controller1 := none, buttonDownUp := none }

/-- A pad whose indexed-controller-array shape works and increments the
machine state. -/
def padArrayOnly : PadAPI Nat :=
  { controllers0 := some (fun n _ _ => some (n + 1)), controller1 := none,
    buttonDownUp := none }

/-- A concrete deterministic engine: boots to the ROM length, counts
frames, and emits the current counter as a one-pixel frame buffer. -/
def natSem : EngineSem Nat Nat :=
  { boot := fun r => r.length,
    frame := fun s => (s + 1, [s % 256]),
    api := natAPI }

/-- An empty localStorage. -/
def emptyStore : StoreT Nat :=
  fun _ => none

/-- A session with a ROM bound, a live engine instance, a stopped loop
and an empty store. -/
def sessBase : Session Nat Nat :=
  { nes := some 7, romBin := some "abc", romName := "game.nes",
    romKey := some "k0", loadedName := "game.nes", running := false,
    audioInited := false, audioQ := [], status := "", store := emptyStore,
    hasSave := false, lastSavedAt := none }

/-- `sessBase` while the frame loop runs with audio unlocked. -/
def sessRun : Session Nat Nat :=
  { sessBase with running := true, audioInited := true }

/-- `sessBase` with no ROM bound. -/
def sessIdle : Session Nat Nat :=
  { sessBase with
      nes := none, romBin := none, romName := "", romKey := none, loadedName := "" }

/-- A stored envelope whose `meta.version` (2) exceeds `SAVE_VERSION`,
sitting under the current versioned storage key with a valid state
payload. -/
def envV2 : RawValue Nat :=
  RawValue.parsed
    { meta := some { version := 2, romName := "g", romKey := "k0", savedAt := "t" },
      state := some 5 }

/-- `sessBase` whose store holds `envV2` under the current save key. -/
def sessV2 : Session Nat Nat :=
  { sessBase with
      store := setItem emptyStore (mkSaveKey "k0") envV2,
      hasSave := true, lastSavedAt := some "t" }

/-! ## Supporting lemmas -/

/-- The queue length after one producer enqueue. -/
lemma length_onAudioSample (q : List Int) (l r : Int) :
    (onAudioSample q l r).length = min (q.length + 2) AUDIO_CAP := by
  simp only [onAudioSample]
  split
  · rename_i h
    simp only [List.length_drop, List.length_append, List.length_cons,
      List.length_nil] at *
    omega
  · rename_i h
    simp only [List.length_append, List.length_cons, List.length_nil] at *
    omega

/-- Every state reached by a non-empty burst of enqueues is within the
cap. -/
lemma enqueueSeq_le (ops : List (Int × Int)) :
    ∀ q : List Int, ops ≠ [] → (enqueueSeq q ops).length ≤ AUDIO_CAP := by
  induction ops with
  | nil => intro q h; exact absurd rfl h
  | cons op rest ih =>
    intro q _
    obtain ⟨l, r⟩ := op
    rcases rest with _ | ⟨op2, rest2⟩
    · simp only [enqueueSeq, length_onAudioSample]
      omega
    · exact ih (onAudioSample q l r) (by simp)

/-- Enqueuing preserves evenness of the queue length: a pair is
appended, and the overflow trim leaves exactly `AUDIO_CAP` (even)
samples. -/
lemma even_onAudioSample (q : List Int) (l r : Int) (h : Even q.length) :
    Even (onAudioSample q l r).length := by
  obtain ⟨k, hk⟩ := h
  rw [length_onAudioSample]
  rcases le_or_lt (q.length + 2) AUDIO_CAP with h1 | h1
  · rw [min_eq_left h1]
    exact ⟨k + 1, by omega⟩
  · rw [min_eq_right (le_of_lt h1)]
    exact ⟨44100, by norm_num [AUDIO_CAP]⟩

/-- The consumer callback removes samples only in pairs. -/
lemma even_pullBlock (n : Nat) :
    ∀ q : List Int, Even q.length → Even ((pullBlock n q).1).length := by
  induction n with
  | zero => intro q h; simpa [pullBlock] using h
  | succ m ih =>
    intro q h
    match q with
    | [] => exact ih [] h
    | [a] => exact ih [a] h
    | a :: b :: rest =>
      simp only [pullBlock]
      apply ih
      obtain ⟨k, hk⟩ := h
      simp only [List.length_cons] at hk
      exact ⟨k - 1, by omega⟩

/-- Each audio-queue operation preserves evenness of the length. -/
lemma even_audioStep (q : List Int) (op : AudioOp) (h : Even q.length) :
    Even (audioStep q op).length := by
  cases op with
  | enqueue l r => exact even_onAudioSample q l r h
  | pull n => exact even_pullBlock n q h
  | clear => simp [audioStep]

/-- Evenness of the queue length is invariant under any operation
sequence. -/
lemma even_foldl_audioStep (ops : List AudioOp) :
    ∀ q : List Int, Even q.length → Even ((ops.foldl audioStep q).length) := by
  induction ops with
  | nil => intro q h; simpa using h
  | cons op rest ih => intro q h; exact ih _ (even_audioStep q op h)

/-- Refreshing the save indicators never changes the ROM key. -/
lemma refreshSaveIndicators_romKey (s : Session σ Snap) :
    (refreshSaveIndicators s).romKey = s.romKey := by
  unfold refreshSaveIndicators
  cases hk : s.romKey with
  | none => rfl
  | some rk =>
    cases hg : getItem s.store (mkSaveKey rk) with
    | none => simp [hg]
    | some v => cases v <;> simp [hg]

/-- Refreshing the save indicators never changes the engine instance. -/
lemma refreshSaveIndicators_nes (s : Session σ Snap) :
    (refreshSaveIndicators s).nes = s.nes := by
  unfold refreshSaveIndicators
  cases hk : s.romKey with
  | none => rfl
  | some rk =>
    cases hg : getItem s.store (mkSaveKey rk) with
    | none => simp [hg]
    | some v => cases v <;> simp [hg]

/-- Each pixel unpacks to exactly four RGBA bytes. -/
lemma length_renderPixel (u : Bool) (p : Nat) : (renderPixel u p).length = 4 := by
  cases u <;> rfl

/-- The rendered image has four bytes per input pixel. -/
lemma length_onFrameRender (u : Bool) (fb : List Nat) :
    (onFrameRender u fb).length = 4 * fb.length := by
  induction fb with
  | nil => rfl
  | cons p rest ih =>
    simp only [onFrameRender, List.length_append, length_renderPixel, ih,
      List.length_cons]
    omega

/-- The four output bytes at offset `4 * i` are the unpacking of input
pixel `i`. -/
lemma onFrameRender_get (u : Bool) :
    ∀ (fb : List Nat) (i : Nat) (h : i < fb.length) (j : Nat), j < 4 →
      (onFrameRender u fb)[4 * i + j]? = (renderPixel u fb[i])[j]? := by
  intro fb
  induction fb with
  | nil => intro i h; simp at h
  | cons p rest ih =>
    intro i h j hj
    cases i with
    | zero =>
      simp only [onFrameRender, Nat.mul_zero, Nat.zero_add, List.getElem_cons_zero]
      rw [List.getElem?_append, if_pos (by rw [length_renderPixel]; omega)]
    | succ i2 =>
      have hlen : 4 * (i2 + 1) + j = (renderPixel u p).length + (4 * i2 + j) := by
        rw [length_renderPixel]; omega
      simp only [onFrameRender, List.getElem_cons_succ]
      rw [hlen, List.getElem?_append_right (by omega)]
      simp only [Nat.add_sub_cancel_left]
      exact ih i2 (by simpa using h) j hj

end RetroArcade

namespace RetroArcade

/-- C3: for every sequence of audio enqueue operations, after each
enqueue the Audio Sample Queue never exceeds the cap of 2×44100
interleaved samples, and an enqueue that would exceed the cap drops
the oldest samples so the final length equals the cap — regardless of
production rate. -/
theorem audioQueue_cap_spec (q : List Int) (l r : Int) (ops : List (Int × Int))
    (hops : ops ≠ []) :
    (onAudioSample q l r).length ≤ AUDIO_CAP ∧
    (AUDIO_CAP < q.length + 2 →
      (onAudioSample q l r).length = AUDIO_CAP ∧
      onAudioSample q l r = (q ++ [l, r]).drop (q.length + 2 - AUDIO_CAP)) ∧
    (enqueueSeq q ops).length ≤ AUDIO_CAP := by
  refine ⟨?_, fun hover => ⟨?_, ?_⟩, enqueueSeq_le ops q hops⟩
  · rw [length_onAudioSample]; omega
  · rw [length_onAudioSample]; omega
  · simp only [onAudioSample]
    rw [if_pos (by simp; omega)]
    simp

/-- Closed witness for `audioQueue_cap_spec`: a single enqueue into the
empty queue. -/
theorem audioQueue_cap_spec_witness :
    ([((1 : Int), (1 : Int))] ≠ []) ∧
    ((onAudioSample [] 1 1).length ≤ AUDIO_CAP ∧
     (AUDIO_CAP < ([] : List Int).length + 2 →
       (onAudioSample [] 1 1).length = AUDIO_CAP ∧
       onAudioSample [] 1 1 =
         (([] : List Int) ++ [1, 1]).drop (([] : List Int).length + 2 - AUDIO_CAP)) ∧
     (enqueueSeq [] [(1, 1)]).length ≤ AUDIO_CAP) :=
  ⟨by decide, audioQueue_cap_spec [] 1 1 [(1, 1)] (by decide)⟩

/-- C10: starting from the empty queue, any sequence of enqueues,
consumer pulls and clears leaves the Audio Sample Queue with an even
length, so left/right channel alignment is never lost. -/
theorem audioQueue_even_spec (ops : List AudioOp) :
    Even ((ops.foldl audioStep []).length) :=
  even_foldl_audioStep ops [] (by simp)

/-- C9: for every frame buffer of packed 32-bit pixels, the Video Sink
writes each pixel's 8-bit R, G, B channels — red from the lowest byte
when the little-endian-style flag is set, red from an upper byte
otherwise — into the RGBA output at the corresponding index, forcing
every alpha byte to 0xff. -/
theorem videoSink_spec (u : Bool) (fb : List Nat) (i : Nat) (h : i < fb.length)
    (_h32 : ∀ p ∈ fb, p < UINT32) :
    (onFrameRender u fb).length = 4 * fb.length ∧
    (onFrameRender u fb)[4 * i]? =
      some (if u then fb[i] % 256 else (fb[i] / 65536) % 256) ∧
    (onFrameRender u fb)[4 * i + 1]? = some ((fb[i] / 256) % 256) ∧
    (onFrameRender u fb)[4 * i + 2]? =
      some (if u then (fb[i] / 65536) % 256 else fb[i] % 256) ∧
    (onFrameRender u fb)[4 * i + 3]? = some 255 := by
  refine ⟨length_onFrameRender u fb, ?_, ?_, ?_, ?_⟩
  · have := onFrameRender_get u fb i h 0 (by omega)
    rw [Nat.add_zero] at this
    rw [this]
    cases u <;> simp [renderPixel]
  · rw [onFrameRender_get u fb i h 1 (by omega)]
    cases u <;> simp [renderPixel]
  · rw [onFrameRender_get u fb i h 2 (by omega)]
    cases u <;> simp [renderPixel]
  · rw [onFrameRender_get u fb i h 3 (by omega)]
    cases u <;> simp [renderPixel]

/-- Closed witness for `videoSink_spec`: the pixel 0x00010203 in the
ABGR layout unpacks to R=3, G=2, B=1, A=255. -/
theorem videoSink_spec_witness :
    (0 < [66051].length ∧ ∀ p ∈ [66051], p < UINT32) ∧
    ((onFrameRender true [66051]).length = 4 * [66051].length ∧
     (onFrameRender true [66051])[4 * 0]? =
       some (if true then [66051][0] % 256 else ([66051][0] / 65536) % 256) ∧
     (onFrameRender true [66051])[4 * 0 + 1]? = some (([66051][0] / 256) % 256) ∧
     (onFrameRender true [66051])[4 * 0 + 2]? =
       some (if true then ([66051][0] / 65536) % 256 else [66051][0] % 256) ∧
     (onFrameRender true [66051])[4 * 0 + 3]? = some 255) :=
  ⟨⟨by decide, by decide⟩,
    videoSink_spec true [66051] 0 (by decide) (by decide)⟩

/-- C6: `play()` is a no-op when the session is already Running; with
no ROM loaded it fails non-fatally, only reporting `NoRomLoaded`;
otherwise it initializes the Audio Bridge and transitions to Running,
starting the frame-drive loop. -/
theorem play_spec (audioSupported : Bool) (sess : Session σ Snap) :
    (sess.loadedName = "" →
      play audioSupported sess = { sess with status := "Load a ROM first." }) ∧
    (sess.loadedName ≠ "" → sess.running = true → sess.audioInited = true →
      play audioSupported sess = sess) ∧
    (sess.loadedName ≠ "" → sess.running = false → audioSupported = true →
      (play audioSupported sess).running = true ∧
      (play audioSupported sess).audioInited = true ∧
      (play audioSupported sess).nes = sess.nes ∧
      runStateOf (play audioSupported sess) = RunState.Running) := by
  refine ⟨fun h => ?_, fun h1 h2 h3 => ?_, fun h1 h2 h3 => ?_⟩
  · simp [play, h]
  · have he : ensureAudio audioSupported sess = sess := by
      simp [ensureAudio, h3]
    simp [play, h1, he, h2]
  · subst h3
    by_cases hA : sess.audioInited = true
    · have he : ensureAudio true sess = sess := by simp [ensureAudio, hA]
      simp [play, h1, he, h2, runStateOf, hA]
    · have he : ensureAudio true sess = { sess with audioInited := true } := by
        simp [ensureAudio]
        intro h
        exact absurd h hA
      simp [play, h1, he, h2, runStateOf]

/-- Closed witness for `play_spec`: on a running session with audio
unlocked, `play` changes nothing. -/
theorem play_spec_witness :
    sessRun.loadedName ≠ "" ∧ sessRun.running = true ∧ sessRun.audioInited = true ∧
    play true sessRun = sessRun :=
  ⟨by decide, rfl, rfl, (play_spec true sessRun).2.1 (by decide) rfl rfl⟩

/-- C7: `save()` with a ROM bound persists under the key
`LS_PREFIX:savestate:v{SAVE_VERSION}:{romKey}` the envelope
`{meta: {version, romName, romKey, savedAt}, state}`; with no ROM
bound it reports failure and leaves the persisted store unmodified. -/
theorem save_spec (sem : EngineSem σ Snap) (silent : Bool) (now : String)
    (sess sess0 : Session σ Snap) (rk : String) (n : σ) (stOpt : Option Snap)
    (hk : sess.romKey = some rk) (hn : sess.nes = some n)
    (hexp : exportState sem.api (some n) = Except.ok stOpt)
    (h0 : sess0.romKey = none) :
    (saveStateToLocalStorage sem silent now sess0).2 = false ∧
    (saveStateToLocalStorage sem silent now sess0).1.store = sess0.store ∧
    (saveStateToLocalStorage sem silent now sess0).1.nes = sess0.nes ∧
    (silent = false →
      (saveStateToLocalStorage sem silent now sess0).1.status =
        "Load a ROM before saving.") ∧
    (saveStateToLocalStorage sem silent now sess).2 = true ∧
    (saveStateToLocalStorage sem silent now sess).1.store =
      setItem sess.store
        (LS_PREFIX ++ ":savestate:v" ++ toString SAVE_VERSION ++ ":" ++ rk)
        (RawValue.parsed
          { meta := some { version := SAVE_VERSION,
                           romName := if sess.romName = "" then sess.loadedName
                                      else sess.romName,
                           romKey := rk, savedAt := now },
            state := stOpt }) := by
  refine ⟨?_, ?_, ?_, fun hs => ?_, ?_, ?_⟩
  · simp [saveStateToLocalStorage, h0]
  · simp only [saveStateToLocalStorage, h0]
    cases silent <;> simp
  · simp only [saveStateToLocalStorage, h0]
    cases silent <;> simp
  · subst hs
    simp [saveStateToLocalStorage, h0]
  · simp [saveStateToLocalStorage, hk, hn, hexp]
  · simp [saveStateToLocalStorage, hk, hn, hexp, mkSaveKey]

/-- Closed witness for `save_spec`: a manual save on `sessBase`
persists the exported snapshot, while `sessIdle` fails and keeps its
store. -/
theorem save_spec_witness :
    (sessBase.romKey = some "k0" ∧ sessBase.nes = some 7 ∧
     exportState natSem.api (some 7) = Except.ok (some 7) ∧
     sessIdle.romKey = none) ∧
    ((saveStateToLocalStorage natSem false "t" sessIdle).2 = false ∧
     (saveStateToLocalStorage natSem false "t" sessIdle).1.store = sessIdle.store ∧
     (saveStateToLocalStorage natSem false "t" sessIdle).1.nes = sessIdle.nes ∧
     (false = false →
       (saveStateToLocalStorage natSem false "t" sessIdle).1.status =
         "Load a ROM before saving.") ∧
     (saveStateToLocalStorage natSem false "t" sessBase).2 = true ∧
     (saveStateToLocalStorage natSem false "t" sessBase).1.store =
       setItem sessBase.store
         (LS_PREFIX ++ ":savestate:v" ++ toString SAVE_VERSION ++ ":" ++ "k0")
         (RawValue.parsed
           { meta := some { version := SAVE_VERSION,
                            romName := if sessBase.romName = "" then sessBase.loadedName
                                       else sessBase.romName,
                            romKey := "k0", savedAt := "t" },
             state := some 7 })) :=
  ⟨⟨rfl, rfl, rfl, rfl⟩,
    save_spec natSem false "t" sessBase sessIdle "k0" 7 (some 7) rfl rfl rfl rfl⟩

/-- C5: `reset()` fails with `NoRomLoaded` when no ROM is bound;
otherwise it stops the loop, replaces the engine with a cold-booted
instance loaded from the retained ROM image, empties the audio queue,
transitions to Loaded, and renders exactly one frame whose pixels are
those of the first frame right after the original `loadRom`. -/
theorem reset_spec (sem : EngineSem σ Snap) (sess sess0 szero : Session σ Snap)
    (rom fname : String)
    (hbin : sess.romBin = some rom) (hname : sess.romName ≠ "")
    (hno : sess0.romBin = none)
    (hf : jsEndsWith (jsToLower fname) ".nes" = true) :
    reset sem sess0 = ({ sess0 with status := "No ROM loaded to reset." }, none) ∧
    (reset sem sess).1.running = false ∧
    (reset sem sess).1.nes = some ((sem.frame (sem.boot rom)).1) ∧
    (reset sem sess).1.audioQ = [] ∧
    runStateOf (reset sem sess).1 = RunState.Loaded ∧
    (reset sem sess).2 = some ((sem.frame (sem.boot rom)).2) ∧
    (loadRom sem szero fname rom).2 = (reset sem sess).2 := by
  refine ⟨?_, ?_, ?_, ?_, ?_, ?_, ?_⟩
  · simp [reset, hno]
  · simp [reset, hbin, drawOneFrame]
  · simp [reset, hbin, drawOneFrame]
  · simp [reset, hbin, drawOneFrame]
  · simp [reset, hbin, drawOneFrame, runStateOf, hname]
  · simp [reset, hbin, drawOneFrame]
  · simp only [loadRom, hf, if_true, reset, hbin, drawOneFrame]
    split <;> rfl

/-- Closed witness for `reset_spec`: resetting `sessBase` cold-boots
the retained three-byte ROM and paints the same first frame `loadRom`
painted. -/
theorem reset_spec_witness :
    (sessBase.romBin = some "abc" ∧ sessBase.romName ≠ "" ∧
     sessIdle.romBin = none ∧ jsEndsWith (jsToLower "a.nes") ".nes" = true) ∧
    (reset natSem sessIdle =
       ({ sessIdle with status := "No ROM loaded to reset." }, none) ∧
     (reset natSem sessBase).1.running = false ∧
     (reset natSem sessBase).1.nes = some ((natSem.frame (natSem.boot "abc")).1) ∧
     (reset natSem sessBase).1.audioQ = [] ∧
     runStateOf (reset natSem sessBase).1 = RunState.Loaded ∧
     (reset natSem sessBase).2 = some ((natSem.frame (natSem.boot "abc")).2) ∧
     (loadRom natSem sessBase "a.nes" "abc").2 = (reset natSem sessBase).2) :=
  ⟨⟨rfl, by decide, rfl, by decide⟩,
    reset_spec natSem sessBase sessIdle sessBase "abc" "a.nes" rfl (by decide) rfl
      (by decide)⟩

/-- C8: the ROM Identity Key computed on `loadRom` is
`{filename}:{byteLength}:{djb2 hash of the first 20000 bytes}` and the
derivation is deterministic in the file name and content. -/
theorem romKey_derivation_spec (sem : EngineSem σ Snap) (sess : Session σ Snap)
    (fname bin : String) (hf : jsEndsWith (jsToLower fname) ".nes" = true) :
    ((loadRom sem sess fname bin).1.romKey =
      some (fname ++ ":" ++ toString bin.length ++ ":" ++
        toHexStr (djb2Hash (bin.take 20000)))) ∧
    (∀ f2 b2 : String, f2 = fname → b2 = bin →
      romIdentityKey f2 b2 = romIdentityKey fname bin) := by
  constructor
  · simp only [loadRom, hf, if_true]
    split
    · simp [refreshSaveIndicators_romKey, drawOneFrame, romIdentityKey]
    · simp [refreshSaveIndicators_romKey, drawOneFrame, romIdentityKey]
  · intro f2 b2 h1 h2
    rw [h1, h2]

/-- Closed witness for `romKey_derivation_spec`: loading a two-byte ROM
named `a.nes`. -/
theorem romKey_derivation_spec_witness :
    (jsEndsWith (jsToLower "a.nes") ".nes" = true) ∧
    (((loadRom natSem sessIdle "a.nes" "ab").1.romKey =
       some ("a.nes" ++ ":" ++ toString ("ab" : String).length ++ ":" ++
         toHexStr (djb2Hash (("ab" : String).take 20000)))) ∧
     (∀ f2 b2 : String, f2 = "a.nes" → b2 = "ab" →
       romIdentityKey f2 b2 = romIdentityKey "a.nes" "ab")) :=
  ⟨by decide, romKey_derivation_spec natSem sessIdle "a.nes" "ab" (by decide)⟩

/-- C1: with a ROM bound, `save()` immediately followed by `load()`
restores an engine instance whose next N rendered frames — the frame
painted by the load itself followed by N−1 more — are pixel-identical
to the frames the original instance would have produced, for every
N ≥ 1, under the hypothesis that importing the exported snapshot into a
cold-booted engine restores the original machine state. -/
theorem saveLoad_roundtrip_spec (sem : EngineSem σ Snap) (sess : Session σ Snap)
    (rom rk : String) (s : σ) (snap : Snap) (now : String) (N : Nat)
    (hbin : sess.romBin = some rom) (hkey : sess.romKey = some rk)
    (hnes : sess.nes = some s)
    (hexp : exportState sem.api (some s) = Except.ok (some snap))
    (hinv : importState sem.api (some (sem.boot rom)) snap = Except.ok (some s))
    (hN : 1 ≤ N) :
    (saveStateToLocalStorage sem false now sess).2 = true ∧
    (loadStateFromLocalStorage sem (saveStateToLocalStorage sem false now sess).1).2.1 =
      LoadOutcome.loaded ∧
    (loadStateFromLocalStorage sem (saveStateToLocalStorage sem false now sess).1).1.nes =
      some ((sem.frame s).1) ∧
    (loadStateFromLocalStorage sem (saveStateToLocalStorage sem false now sess).1).2.2 =
      some ((sem.frame s).2) ∧
    (sem.frame s).2 :: producedFrames sem ((sem.frame s).1) (N - 1) =
      producedFrames sem s N := by
  have hsave : saveStateToLocalStorage sem false now sess =
      ({ sess with
          store := setItem sess.store (mkSaveKey rk)
            (RawValue.parsed
              { meta := some { version := SAVE_VERSION,
                               romName := if sess.romName = "" then sess.loadedName
                                          else sess.romName,
                               romKey := rk, savedAt := now },
                state := some snap }),
          hasSave := true, lastSavedAt := some now,
          status := "Saved state (" ++ now ++ ")" }, true) := by
    simp [saveStateToLocalStorage, hkey, hnes, hexp]
  rw [hsave]
  obtain ⟨m, rfl⟩ : ∃ m, N = m + 1 := ⟨N - 1, by omega⟩
  refine ⟨rfl, ?_, ?_, ?_, ?_⟩
  · simp [loadStateFromLocalStorage, getItem, setItem, hkey, hbin, hinv, drawOneFrame]
  · simp [loadStateFromLocalStorage, getItem, setItem, hkey, hbin, hinv, drawOneFrame]
  · simp [loadStateFromLocalStorage, getItem, setItem, hkey, hbin, hinv, drawOneFrame]
  · simp [producedFrames]

/-- Closed witness for `saveLoad_roundtrip_spec`: save then load on
`sessBase` with the concrete engine, N = 1. -/
theorem saveLoad_roundtrip_spec_witness :
    (sessBase.romBin = some "abc" ∧ sessBase.romKey = some "k0" ∧
     sessBase.nes = some 7 ∧
     exportState natSem.api (some 7) = Except.ok (some 7) ∧
     importState natSem.api (some (natSem.boot "abc")) 7 = Except.ok (some 7) ∧
     1 ≤ 1) ∧
    ((saveStateToLocalStorage natSem false "t" sessBase).2 = true ∧
     (loadStateFromLocalStorage natSem
        (saveStateToLocalStorage natSem false "t" sessBase).1).2.1 =
       LoadOutcome.loaded ∧
     (loadStateFromLocalStorage natSem
        (saveStateToLocalStorage natSem false "t" sessBase).1).1.nes =
       some ((natSem.frame 7).1) ∧
     (loadStateFromLocalStorage natSem
        (saveStateToLocalStorage natSem false "t" sessBase).1).2.2 =
       some ((natSem.frame 7).2) ∧
     (natSem.frame 7).2 :: producedFrames natSem ((natSem.frame 7).1) (1 - 1) =
       producedFrames natSem 7 1) :=
  ⟨⟨rfl, rfl, rfl, rfl, rfl, le_refl 1⟩,
    saveLoad_roundtrip_spec natSem sessBase "abc" "k0" 7 7 "t" 1 rfl rfl rfl rfl rfl
      (le_refl 1)⟩

/-- C2 (amended): `load()` fails with `NoSaveFound` when no record
exists under the current key and with `CorruptSaveData` when the
stored envelope fails to parse or lacks a state payload, leaving the
engine instance untouched in each case; the loader performs no
`formatVersion` check — an envelope under the current key is imported
whatever its `meta.version` says. -/
theorem load_failure_spec (sem : EngineSem σ Snap) (sess : Session σ Snap)
    (rk : String) (hk : sess.romKey = some rk) :
    (getItem sess.store (mkSaveKey rk) = none →
      loadStateFromLocalStorage sem sess =
        ({ sess with status := "No save state found for this ROM." },
          LoadOutcome.noSaveFound, none)) ∧
    (getItem sess.store (mkSaveKey rk) = some RawValue.malformed →
      loadStateFromLocalStorage sem sess =
        ({ sess with status := "Load failed" }, LoadOutcome.loadFailed, none)) ∧
    (∀ m : Option SaveMeta,
      getItem sess.store (mkSaveKey rk) =
        some (RawValue.parsed { meta := m, state := none }) →
      loadStateFromLocalStorage sem sess =
        ({ sess with status := "Save state data is invalid." },
          LoadOutcome.invalidData, none)) ∧
    (∀ (m : Option SaveMeta) (st : Snap) (rom : String) (n1 : σ),
      sess.romBin = some rom →
      getItem sess.store (mkSaveKey rk) =
        some (RawValue.parsed { meta := m, state := some st }) →
      importState sem.api (some (sem.boot rom)) st = Except.ok (some n1) →
      (loadStateFromLocalStorage sem sess).2.1 = LoadOutcome.loaded) := by
  refine ⟨fun h => ?_, fun h => ?_, fun m h => ?_, fun m st rom n1 hb h hi => ?_⟩
  · simp [loadStateFromLocalStorage, hk, h]
  · simp [loadStateFromLocalStorage, hk, h]
  · simp [loadStateFromLocalStorage, hk, h]
  · simp [loadStateFromLocalStorage, hk, h, hb, hi, drawOneFrame]

/-- Closed witness for `load_failure_spec`: on `sessBase` (empty
store) the load reports `NoSaveFound` and changes nothing but the
status line. -/
theorem load_failure_spec_witness :
    sessBase.romKey = some "k0" ∧
    getItem sessBase.store (mkSaveKey "k0") = none ∧
    loadStateFromLocalStorage natSem sessBase =
      ({ sessBase with status := "No save state found for this ROM." },
        LoadOutcome.noSaveFound, none) :=
  ⟨rfl, rfl, (load_failure_spec natSem sessBase "k0" rfl).1 rfl⟩

/-- C2 counterexample: an envelope stored under the current key whose
`meta.version` (2) exceeds `SAVE_VERSION` (1) is loaded successfully —
the engine instance is replaced, not left untouched, and no
`UnsupportedSaveVersion` failure occurs. -/
theorem load_version_unchecked_cx :
    SAVE_VERSION < 2 ∧
    (loadStateFromLocalStorage natSem sessV2).2.1 = LoadOutcome.loaded ∧
    (loadStateFromLocalStorage natSem sessV2).1.nes = some 6 ∧
    sessV2.nes = some 7 := by
  refine ⟨by decide, ?_, ?_, rfl⟩ <;> decide

/-- C4 (amended): snapshot export and import probe the candidate
method shapes in a fixed priority order, use the first shape that
exists, and fail with an error naming the missing capability when all
shapes are absent; button events probe their candidate shapes in fixed
order and use the first that exists and succeeds, but when every shape
is absent the press falls through silently with the engine unchanged
and no error. -/
theorem adapter_probe_spec (api : SaveAPI σ Snap) (pad : PadAPI σ) (n : σ)
    (btn : Nat) (isDown : Bool) (st : Snap) :
    (∀ f, api.toJSON = some f →
      exportState api (some n) = Except.ok (some (f n))) ∧
    (∀ f, api.toJSON = none → api.serialize = some f →
      exportState api (some n) = Except.ok (some (f n))) ∧
    (api.toJSON = none → api.serialize = none → api.saveState = none →
      api.getState = none →
      exportState api (some n) =
        Except.error "This jsnes build does not expose a save-state API.") ∧
    (∀ f, api.fromJSON = some f →
      importState api (some n) st = Except.ok (some (f n st))) ∧
    (api.fromJSON = none → api.deserialize = none → api.loadState = none →
      api.setState = none →
      importState api (some n) st =
        Except.error "This jsnes build does not expose a load-state API.") ∧
    (∀ g n1, pad.controllers0 = some g → g n btn isDown = some n1 →
      press pad n btn isDown = (n1, true)) ∧
    (∀ g n1, pad.controllers0 = none → pad.controller1 = some g →
      g n btn isDown = some n1 → press pad n btn isDown = (n1, true)) ∧
    (pad.controllers0 = none → pad.controller1 = none → pad.buttonDownUp = none →
      press pad n btn isDown = (n, false)) := by
  refine ⟨fun f h => ?_, fun f h1 h2 => ?_, fun h1 h2 h3 h4 => ?_, fun f h => ?_,
    fun h1 h2 h3 h4 => ?_, fun g n1 h1 h2 => ?_, fun g n1 h1 h2 h3 => ?_,
    fun h1 h2 h3 => ?_⟩
  · simp [exportState, h]
  · simp [exportState, h1, h2]
  · simp [exportState, h1, h2, h3, h4]
  · simp [importState, h]
  · simp [importState, h1, h2, h3, h4]
  · simp [press, runShape, h1, h2]
  · simp [press, runShape, h1, h2, h3]
  · simp [press, runShape, h1, h2, h3]

/-- Closed witness for `adapter_probe_spec`: a build with no snapshot
shapes errors on export and import, and a pad with no button shapes
leaves the engine untouched. -/
theorem adapter_probe_spec_witness :
    (emptyAPI.toJSON = none ∧ emptyAPI.serialize = none ∧
     emptyAPI.saveState = none ∧ emptyAPI.getState = none ∧
     emptyAPI.fromJSON = none ∧ emptyAPI.deserialize = none ∧
     emptyAPI.loadState = none ∧ emptyAPI.setState = none ∧
     padNone.controllers0 = none ∧ padNone.controller1 = none ∧
     padNone.buttonDownUp = none) ∧
    exportState emptyAPI (some 7) =
      Except.error "This jsnes build does not expose a save-state API." ∧
    importState emptyAPI (some 7) 5 =
      Except.error "This jsnes build does not expose a load-state API." ∧
    press padNone 7 3 true = (7, false) :=
  ⟨⟨rfl, rfl, rfl, rfl, rfl, rfl, rfl, rfl, rfl, rfl, rfl⟩,
    (adapter_probe_spec emptyAPI padNone 7 3 true 5).2.2.1 rfl rfl rfl rfl,
    (adapter_probe_spec emptyAPI padNone 7 3 true 5).2.2.2.2.1 rfl rfl rfl rfl,
    (adapter_probe_spec emptyAPI padNone 7 3 true 5).2.2.2.2.2.2.2 rfl rfl rfl⟩

/-- C4 counterexample: when every candidate button shape is absent,
`press` completes normally, returning the unchanged engine and the
fall-through flag — it raises no `UnsupportedEngineBuild` error. -/
theorem press_silent_cx : press padNone 7 3 true = (7, false) := rfl

end RetroArcade
